import Mathlib

/-
Verification of the LP-modeling data-access layer (geckoTerminalClient.py).

The source is a pair of Python HTTP client wrappers:
  * `GeckoTerminalClient` — rate limiter (30 calls / minute), request executor,
    and normalizers for single-pool metrics, multi-pool metrics and OHLCV candles;
  * `YieldSamuraiClient` — rate limiter (10 calls / minute), request executor,
    and a historical-TVL normalizer with a CSV export side effect.

The shallow embedding below models:
  * JSON payloads as the inductive `JVal`;
  * Python truthiness, `dict.get`, the `in` operator, `float()` and `int()`
    coercions (on the value shapes the clients actually receive);
  * exceptions as `Except PyErr`, distinguishing the exception classes the
    source catches (`ValueError`, `TypeError`, `KeyError`) from those it lets
    propagate (e.g. `IndexError`, `AttributeError`);
  * wall-clock time as exact rationals, with `time.sleep` made explicit by
    returning the wait duration from the rate-limit check and threading a
    clock through the call-sequence simulation.
-/

set_option autoImplicit false

/-- A decoded JSON value, the domain of every payload the clients handle. -/
inductive JVal where
  | null
  | bool (b : Bool)
  | num (q : ℚ)
  | str (s : String)
  | arr (xs : List JVal)
  | obj (kvs : List (String × JVal))

/-- First-match association-list lookup; models Python dict key lookup on the
object payloads in scope (which carry no duplicate keys). -/
def lookupKey : List (String × JVal) → String → Option JVal
  | [], _ => none
  | (k, v) :: rest, key => if k = key then some v else lookupKey rest key

/-- `v.get k` models `v[k]`-style access restricted to objects: the value at
key `k` when `v` is an object containing it, `none` otherwise. -/
def JVal.get : JVal → String → Option JVal
  | .obj kvs, key => lookupKey kvs key
  | _, _ => none

/-- Models Python `key in v` for the shapes the guards meet: key membership
for dicts, element membership for lists, `False` for the rest.  (On a number
Python would raise `TypeError`; no claim reaches that case because every
guard that uses `in` receives a decoded JSON body or the `\x7b\x7d` sentinel.) -/
def JVal.hasKey : JVal → String → Bool
  | .obj kvs, key => (lookupKey kvs key).isSome
  | .arr xs, key => xs.any fun x => match x with | .str s => s = key | _ => false
  | _, _ => false

/-- Python truthiness (`bool(v)`) on decoded JSON values. -/
def JVal.truthy : JVal → Bool
  | .null => false
  | .bool b => b
  | .num q => decide (q ≠ 0)
  | .str s => s ≠ ""
  | .arr xs => !xs.isEmpty
  | .obj kvs => !kvs.isEmpty

/-- Digits-to-number accumulator for the decimal parser. -/
def digitsToNat : List Char → Nat :=
  List.foldl (fun acc c => 10 * acc + (c.toNat - '0'.toNat)) 0

/-- Models Python `float(s)` on plain decimal literals: an optional sign,
digits, an optional fractional part, nothing else.  Exponent forms, `inf`,
`nan` and surrounding whitespace do not occur in any payload in scope. -/
def parseFloat (s : String) : Option ℚ :=
  let cs := s.toList
  let (sign, cs) : ℚ × List Char :=
    match cs with
    | '-' :: rest => (-1, rest)
    | '+' :: rest => (1, rest)
    | _ => (1, cs)
  let intPart := cs.takeWhile Char.isDigit
  let rest := cs.dropWhile Char.isDigit
  match rest with
  | [] =>
    if intPart.isEmpty then none
    else some (sign * (digitsToNat intPart : ℚ))
  | '.' :: fr =>
    let fracPart := fr.takeWhile Char.isDigit
    let rest2 := fr.dropWhile Char.isDigit
    if !rest2.isEmpty then none
    else if intPart.isEmpty && fracPart.isEmpty then none
    else some (sign * ((digitsToNat intPart : ℚ)
      + (digitsToNat fracPart : ℚ) / (10 ^ fracPart.length)))
  | _ => none

/-- Models Python `int(s)` on strings: an optional sign and digits only. -/
def parseIntStr (s : String) : Option ℤ :=
  let cs := s.toList
  let (sign, cs) : ℤ × List Char :=
    match cs with
    | '-' :: rest => (-1, rest)
    | '+' :: rest => (1, rest)
    | _ => (1, cs)
  if cs.isEmpty || !cs.all Char.isDigit then none
  else some (sign * (digitsToNat cs : ℤ))

/-- Truncation toward zero, the rounding of Python `int()` on a float. -/
def ratTrunc (q : ℚ) : ℤ :=
  if 0 ≤ q then ⌊q⌋ else -⌊-q⌋

/-- Models Python `float(v)`: numbers pass through, booleans coerce, numeric
strings parse; `None`, lists and dicts raise (`TypeError`), non-numeric
strings raise (`ValueError`) — both encoded as `none` because every use site
catches exactly these two classes. -/
def pyFloat : JVal → Option ℚ
  | .num q => some q
  | .bool b => some (if b then 1 else 0)
  | .str s => parseFloat s
  | _ => none

/-- Models Python `int(v)` under the same exception encoding as `pyFloat`. -/
def pyInt : JVal → Option ℤ
  | .num q => some (ratTrunc q)
  | .bool b => some (if b then 1 else 0)
  | .str s => parseIntStr s
  | _ => none

/-- The exception outcomes the clients distinguish: `caught` stands for the
classes named in an `except` clause at the use site (`ValueError`,
`TypeError`, `KeyError`), `uncaught` for anything that propagates out of the
fetch method (`IndexError`, `AttributeError`). -/
inductive PyErr where
  | caught
  | uncaught
deriving DecidableEq, Repr

/-- Models `v.get(key, default)`: on a dict, the stored value or the default;
on anything else Python raises `AttributeError`, which no handler in the
source catches. -/
def pyGetAttr (v : JVal) (key : String) (default : JVal) : Except PyErr JVal :=
  match v with
  | .obj kvs => .ok ((lookupKey kvs key).getD default)
  | _ => .error .uncaught

/- ------------------------------------------------------------------
Rate limiter (`GeckoTerminalClient._rate_limit_check`, lines 17-25, and the
identical `YieldSamuraiClient._rate_limit_check`, lines 147-155; the two
differ only in `rate_limit`, 30 versus 10).
------------------------------------------------------------------ -/

/-- One invocation of `_rate_limit_check`, state-passing style.  Input: the
tracked window `calls` and the clock reading `current_time` taken at entry.
Output: the new window and the duration passed to `time.sleep` (0 when no
sleep happens).  Mirrors the source line by line: filter the window to
entries with `current_time - call < 60`; when the remaining count reaches
`rate_limit`, sleep `60 - (current_time - calls[0])` if positive; finally
append `current_time` — the clock reading taken before any sleep — to the
window. -/
def rate_limit_check (rate_limit : ℕ) (calls : List ℚ) (current_time : ℚ) :
    List ℚ × ℚ :=
  let calls := calls.filter fun c => decide (current_time - c < 60)
  let sleep_time : ℚ :=
    if rate_limit ≤ calls.length then
      let st := 60 - (current_time - calls.headD 0)
      if 0 < st then st else 0
    else 0
  (calls ++ [current_time], sleep_time)

/-- Drives a sequence of back-to-back fetch calls through one client's rate
limiter.  `delays` lists, per call, the time elapsed between the previous
call's dispatch (the moment `_rate_limit_check` returns and the HTTP GET is
issued) and this call's entry into the check; the source is single-threaded,
so each entry time is the previous dispatch time plus a nonnegative delay.
Returns the dispatch times. -/
def simulate_calls (rate_limit : ℕ) : List ℚ → List ℚ → ℚ → List ℚ
  | [], _, _ => []
  | d :: rest, calls, clock =>
    let entry := clock + d
    let out := rate_limit_check rate_limit calls entry
    let dispatch := entry + out.2
    dispatch :: simulate_calls rate_limit rest out.1 dispatch

/-- Dispatch times of a call sequence starting at clock 0 with an empty
window, given the inter-call delays. -/
def simulate (rate_limit : ℕ) (delays : List ℚ) : List ℚ :=
  simulate_calls rate_limit delays [] 0

/-- Number of dispatches falling in the trailing 60-second window `(t, t+60]`. -/
def countInWindow (dispatches : List ℚ) (t : ℚ) : ℕ :=
  (dispatches.filter fun d => decide (t < d) && decide (d ≤ t + 60)).length

set_option maxHeartbeats 4000000 in
set_option maxRecDepth 4000 in
/-- Claim C1: the rate limiter is claimed to keep the number of requests
dispatched within any trailing 60-second window at or below N = 30 for
`GeckoTerminalClient`.  The code violates this: 61 back-to-back calls
(zero delay) produce 30 dispatches at time 0, a 31st at time 60 after a
60-second sleep — recorded under its pre-sleep timestamp 0, which
immediately ages out of the window — and then 30 further dispatches at
time 60, for 31 dispatches inside the window `(0, 60]`. -/
theorem rate_limiter_window_cap_violated :
    countInWindow (simulate 30 (List.replicate 61 0)) 0 = 31 := by
  norm_num [simulate, simulate_calls, rate_limit_check, countInWindow,
    List.replicate, List.filter, List.headD]

/-- Claim C2 counterexample: the check is claimed to record, after any wait,
the time at which the call proceeds.  With a full window of 30 entries at
time 0 and the clock at 0, the check sleeps 60 seconds, so the call proceeds
at time 60, yet the entry it appends is the pre-sleep reading 0. -/
theorem rate_limit_check_records_entry_time_cex :
    (rate_limit_check 30 (List.replicate 30 0) 0).1.getLastD 99 ≠
      0 + (rate_limit_check 30 (List.replicate 30 0) 0).2 := by
  norm_num [rate_limit_check, List.replicate, List.filter, List.headD]

/-- Claim C2 (amended): one invocation of the rate-limit check evicts every
tracked timestamp aged 60 seconds or more, waits `60 - (now - oldest)` when
the remaining count is at least N and that value is positive, and appends
the clock reading taken at entry to the check — before any wait — as the
new entry. -/
theorem rate_limit_check_steps (N : ℕ) (calls : List ℚ) (now : ℚ) :
    (rate_limit_check N calls now).1 =
      (calls.filter fun c => decide (now - c < 60)) ++ [now] ∧
    (rate_limit_check N calls now).2 =
      (if N ≤ (calls.filter fun c => decide (now - c < 60)).length ∧
          0 < 60 - (now - (calls.filter fun c => decide (now - c < 60)).headD 0)
       then 60 - (now - (calls.filter fun c => decide (now - c < 60)).headD 0)
       else 0) := by
  unfold rate_limit_check
  refine ⟨rfl, ?_⟩
  by_cases h : N ≤ (calls.filter fun c => decide (now - c < 60)).length
  · by_cases h2 :
      0 < 60 - (now - (calls.filter fun c => decide (now - c < 60)).headD 0)
    · simp [h, h2]
    · simp [h, h2]
  · simp [h]

/- ------------------------------------------------------------------
Request executor (`GeckoTerminalClient._make_request`, lines 27-36, and the
identical `YieldSamuraiClient._make_request`, lines 157-168).
------------------------------------------------------------------ -/

/-- Outcome of `session.get` as the executor observes it: either the request
raised a transport-level `RequestException`, or a response arrived with an
HTTP status and a decoded JSON body.  (A body that fails JSON decoding is
not exercised by any claim and is outside this model.) -/
inductive HttpResult where
  | transportError
  | response (status : ℕ) (body : JVal)

/-- Models `_make_request` after the rate-limit gate: `raise_for_status`
raises `HTTPError` exactly for statuses in `[400, 600)`; that exception and
any transport `RequestException` are caught, the condition is printed, and
the empty dict is returned.  Result: the returned payload and whether an
error report was printed. -/
def make_request (r : HttpResult) : JVal × Bool :=
  match r with
  | .transportError => (.obj [], true)
  | .response status body =>
    if 400 ≤ status ∧ status < 600 then (.obj [], true) else (body, false)

/-- Claim C4 counterexample: a non-2xx status outside `[400, 600)` does not
make the executor return the empty mapping.  A 300 Multiple Choices
response — a non-2xx status the transport does not follow as a redirect —
carrying a JSON body is passed through unchanged and unreported, because
`raise_for_status` raises only for 4xx/5xx. -/
theorem make_request_3xx_returns_body :
    make_request (.response 300 (JVal.obj [("data", JVal.null)])) =
      (JVal.obj [("data", JVal.null)], false) ∧
    JVal.obj [("data", JVal.null)] ≠ JVal.obj [] := by
  refine ⟨rfl, fun h => ?_⟩
  injection h with h2
  exact List.noConfusion h2

/-- Claim C4 (amended): when the HTTP GET fails at the transport level or
returns a 4xx/5xx status, the executor does not raise: it reports the
condition and returns the empty mapping. -/
theorem make_request_failure_empty (status : ℕ) (body : JVal)
    (h : 400 ≤ status ∧ status < 600) :
    make_request .transportError = (JVal.obj [], true) ∧
    make_request (.response status body) = (JVal.obj [], true) := by
  refine ⟨rfl, ?_⟩
  show (if 400 ≤ status ∧ status < 600 then (JVal.obj [], true)
    else (body, false)) = (JVal.obj [], true)
  rw [if_pos h]

/-- Witness for `make_request_failure_empty` at status 404. -/
theorem make_request_failure_empty_witness :
    make_request (.response 404 JVal.null) = (JVal.obj [], true) :=
  (make_request_failure_empty 404 JVal.null (by decide)).2

/- ------------------------------------------------------------------
Single-pool normalizer (`GeckoTerminalClient.fetch_pool_metrics`,
lines 38-59).
------------------------------------------------------------------ -/

/-- The Pool Metric Record produced by the single-pool fetch.  The source
also stamps `fetch_timestamp = int(time.time())`; the clock reading is the
`now` argument of the model. -/
structure PoolMetric where
  network : String
  pool_address : String
  tvl_usd : ℚ
  volume_24h_usd : ℚ
  fetch_timestamp : ℤ
deriving Repr

/-- Models `fetch_pool_metrics` from the decoded response of its
`_make_request` call.  Guard: a falsy response, a missing `data` key or a
missing `data.attributes` key short-circuits to `None`.  Then
`float(attributes.get('reserve_in_usd', 0))` and
`float(attributes.get('volume_usd', \x7b\x7d).get('h24', 0))` are computed in
order; a `ValueError`/`TypeError` from either is caught and yields `None`,
while an `AttributeError` from a non-dict `.get` target propagates. -/
def fetch_pool_metrics (network pool_address : String) (response : JVal)
    (now : ℤ) : Except PyErr (Option PoolMetric) :=
  if !response.truthy || !response.hasKey "data"
      || !(((response.get "data").getD .null).hasKey "attributes") then
    .ok none
  else
    let attributes := (((response.get "data").getD .null).get "attributes").getD .null
    match pyGetAttr attributes "reserve_in_usd" (.num 0) with
    | .error e => .error e
    | .ok rv =>
      match pyFloat rv with
      | none => .ok none
      | some tvl =>
        match pyGetAttr attributes "volume_usd" (.obj []) with
        | .error e => .error e
        | .ok vu =>
          match pyGetAttr vu "h24" (.num 0) with
          | .error e => .error e
          | .ok hv =>
            match pyFloat hv with
            | none => .ok none
            | some volume =>
              .ok (some ⟨network, pool_address, tvl, volume, now⟩)

/-- Claim C5: for every network and pool address, a response that is empty
(falsy) or lacks the `data` key makes `fetch_pool_metrics` return the
not-found sentinel `None` — no exception is raised and no list is
produced (the operation's success type is an optional single record). -/
theorem fetch_pool_metrics_missing_data_none (network pool_address : String)
    (response : JVal) (now : ℤ)
    (h : response.truthy = false ∨ response.hasKey "data" = false) :
    fetch_pool_metrics network pool_address response now = .ok none := by
  unfold fetch_pool_metrics
  rcases h with h | h <;> simp [h]

/-- Witness for `fetch_pool_metrics_missing_data_none`: a truthy response
without a `data` key. -/
theorem fetch_pool_metrics_missing_data_none_witness :
    fetch_pool_metrics "solana" "POOL1" (JVal.obj [("meta", JVal.null)]) 0 =
      .ok none :=
  fetch_pool_metrics_missing_data_none "solana" "POOL1"
    (JVal.obj [("meta", JVal.null)]) 0 (Or.inr rfl)

/-- Helper for the C6 evaluation: Python `float("1234.5")`. -/
lemma parseFloat_1234_5 : parseFloat "1234.5" = some (1234.5 : ℚ) := by
  have h : parseFloat "1234.5"
      = some ((1 : ℚ) * (((1234 : ℕ) : ℚ) + ((5 : ℕ) : ℚ) / 10 ^ (1 : ℕ))) := rfl
  rw [h]; norm_num

/-- Claim C6: for every network and pool address, a well-formed single-pool
response with `reserve_in_usd = "1234.5"` (a numeric string) and
`volume_usd.h24 = 67.8` yields a record with `tvl_usd = 1234.5`,
`volume_24h_usd = 67.8`, and the `network` and `pool_address` arguments
echoed back unchanged. -/
theorem fetch_pool_metrics_wellformed (network pool_address : String) (now : ℤ) :
    fetch_pool_metrics network pool_address
      (JVal.obj [("data", JVal.obj [("attributes", JVal.obj
        [("reserve_in_usd", JVal.str "1234.5"),
         ("volume_usd", JVal.obj [("h24", JVal.num 67.8)])])])]) now =
      .ok (some ⟨network, pool_address, 1234.5, 67.8, now⟩) := by
  have key : fetch_pool_metrics network pool_address
      (JVal.obj [("data", JVal.obj [("attributes", JVal.obj
        [("reserve_in_usd", JVal.str "1234.5"),
         ("volume_usd", JVal.obj [("h24", JVal.num 67.8)])])])]) now =
      (match pyFloat (JVal.str "1234.5") with
       | none => Except.ok none
       | some tvl =>
         Except.ok (some ⟨network, pool_address, tvl, 67.8, now⟩)) := rfl
  rw [key, show pyFloat (JVal.str "1234.5") = some (1234.5 : ℚ) from
    parseFloat_1234_5]

/- ------------------------------------------------------------------
Multi-pool normalizer (`GeckoTerminalClient.fetch_multi_pool_metrics`,
lines 61-90).
------------------------------------------------------------------ -/

/-- Record produced by the multi-pool normalizer.  Unlike the single-pool
variant, `pool_address` comes from the payload
(`attributes.get('address', '')`) and is stored without coercion. -/
structure MultiPoolMetric where
  network : String
  pool_address : JVal
  tvl_usd : ℚ
  volume_24h_usd : ℚ
  fetch_timestamp : ℤ

/-- Loop body of `fetch_multi_pool_metrics` for one `pool_data` entry.
`.ok none` models the `continue` taken when the per-record handler catches a
`ValueError`/`TypeError`; `.error .uncaught` models an exception that
handler does not catch (an `AttributeError` from calling `.get` on a
non-dict). -/
def parsePoolData (network : String) (now : ℤ) (pool_data : JVal) :
    Except PyErr (Option MultiPoolMetric) :=
  match pyGetAttr pool_data "attributes" (.obj []) with
  | .error e => .error e
  | .ok attributes =>
    match pyGetAttr attributes "address" (.str "") with
    | .error e => .error e
    | .ok addr =>
      match pyGetAttr attributes "reserve_in_usd" (.num 0) with
      | .error e => .error e
      | .ok rv =>
        match pyFloat rv with
        | none => .ok none
        | some tvl =>
          match pyGetAttr attributes "volume_usd" (.obj []) with
          | .error e => .error e
          | .ok vu =>
            match pyGetAttr vu "h24" (.num 0) with
            | .error e => .error e
            | .ok hv =>
              match pyFloat hv with
              | none => .ok none
              | some volume => .ok (some ⟨network, addr, tvl, volume, now⟩)

/-- The `for pool_data in response['data']` loop: records accumulate in
order, caught per-record failures are skipped, an uncaught exception
abandons the whole call (the accumulated list is lost with the raised
exception, as in the source). -/
def multiPoolLoop (network : String) (now : ℤ) :
    List JVal → Except PyErr (List MultiPoolMetric)
  | [] => .ok []
  | x :: rest =>
    match parsePoolData network now x with
    | .error e => .error e
    | .ok none => multiPoolLoop network now rest
    | .ok (some r) =>
      match multiPoolLoop network now rest with
      | .error e => .error e
      | .ok rs => .ok (r :: rs)

/-- Models `fetch_multi_pool_metrics` from the decoded response of its
`_make_request` call.  An empty address list short-circuits to `[]` before
any request is made; a falsy response or missing `data` key yields `[]`.
Iterating a non-list `data` value raises outside the per-record handler in
the source, modelled as an uncaught error.  (A string or dict `data`, which
Python would iterate per character or per key, is approximated by the same
uncaught outcome; no payload in scope has one.) -/
def fetch_multi_pool_metrics (network : String) (pool_addresses : List String)
    (response : JVal) (now : ℤ) : Except PyErr (List MultiPoolMetric) :=
  if pool_addresses.isEmpty then .ok []
  else if !response.truthy || !response.hasKey "data" then .ok []
  else
    match (response.get "data").getD .null with
    | .arr items => multiPoolLoop network now items
    | _ => .error .uncaught

/-- Claim C9: a single-pool or multi-pool attributes mapping that lacks the
`reserve_in_usd` key, or whose `volume_usd` mapping lacks the `h24` key,
does not make the normalizer report not-found or skip the record: the
missing field silently defaults to `0.0` via the `.get(..., 0)` fallbacks,
and a record is still produced. -/
theorem missing_metric_fields_default_zero (network pool_address a : String)
    (now : ℤ) (v r w : ℚ)
    (kvs₁ kvs₂ kvs₃ vkvs : List (String × JVal))
    (h1 : lookupKey kvs₁ "reserve_in_usd" = none)
    (h2 : lookupKey kvs₁ "volume_usd" = some (.obj [("h24", .num v)]))
    (h3 : lookupKey kvs₂ "reserve_in_usd" = some (.num r))
    (h4 : lookupKey kvs₂ "volume_usd" = some (.obj vkvs))
    (h5 : lookupKey vkvs "h24" = none)
    (h6 : lookupKey kvs₃ "reserve_in_usd" = none)
    (h7 : lookupKey kvs₃ "volume_usd" = some (.obj [("h24", .num w)]))
    (h8 : lookupKey kvs₃ "address" = some (.str a)) :
    fetch_pool_metrics network pool_address
      (.obj [("data", .obj [("attributes", .obj kvs₁)])]) now =
      .ok (some ⟨network, pool_address, 0, v, now⟩) ∧
    fetch_pool_metrics network pool_address
      (.obj [("data", .obj [("attributes", .obj kvs₂)])]) now =
      .ok (some ⟨network, pool_address, r, 0, now⟩) ∧
    fetch_multi_pool_metrics network [pool_address]
      (.obj [("data", .arr [.obj [("attributes", .obj kvs₃)]])]) now =
      .ok [⟨network, .str a, 0, w, now⟩] := by
  refine ⟨?_, ?_, ?_⟩
  · simp [fetch_pool_metrics, JVal.truthy, JVal.hasKey, JVal.get, lookupKey,
      pyGetAttr, h1, h2, pyFloat]
  · simp [fetch_pool_metrics, JVal.truthy, JVal.hasKey, JVal.get, lookupKey,
      pyGetAttr, h3, h4, h5, pyFloat]
  · simp [fetch_multi_pool_metrics, multiPoolLoop, parsePoolData, JVal.truthy,
      JVal.hasKey, JVal.get, lookupKey, pyGetAttr, h6, h7, h8, pyFloat]

/-- Witness for `missing_metric_fields_default_zero` at concrete attribute
mappings. -/
theorem missing_metric_fields_default_zero_witness :
    fetch_pool_metrics "eth" "P" (.obj [("data", .obj [("attributes",
      .obj [("volume_usd", .obj [("h24", .num 5)])])])]) 0 =
      .ok (some ⟨"eth", "P", 0, 5, 0⟩) ∧
    fetch_pool_metrics "eth" "P" (.obj [("data", .obj [("attributes",
      .obj [("reserve_in_usd", .num 3), ("volume_usd", .obj [])])])]) 0 =
      .ok (some ⟨"eth", "P", 3, 0, 0⟩) ∧
    fetch_multi_pool_metrics "eth" ["P"] (.obj [("data", .arr [.obj
      [("attributes", .obj [("address", .str "A"),
        ("volume_usd", .obj [("h24", .num 7)])])]])]) 0 =
      .ok [⟨"eth", .str "A", 0, 7, 0⟩] :=
  missing_metric_fields_default_zero "eth" "P" "A" 0 5 3 7
    [("volume_usd", .obj [("h24", .num 5)])]
    [("reserve_in_usd", .num 3), ("volume_usd", .obj [])]
    [("address", .str "A"), ("volume_usd", .obj [("h24", .num 7)])]
    [] rfl rfl rfl rfl rfl rfl rfl rfl

/- ------------------------------------------------------------------
OHLCV fetch (`GeckoTerminalClient.fetch_pool_ohlcv`, lines 92-132).
------------------------------------------------------------------ -/

/-- The query parameters `fetch_pool_ohlcv` passes to the executor;
`before_timestamp = none` means the key is absent from `params`. -/
structure OhlcvParams where
  aggregate : ℤ
  limit : ℤ
  currency : String
  token : String
  before_timestamp : Option ℤ
deriving DecidableEq, Repr

/-- Models the request-building prefix of `fetch_pool_ohlcv` (lines 98-108):
the network alias, the endpoint path and the query parameters.  The
`before_timestamp` key is added only when the argument is truthy
(`if before_timestamp:`), so `None` and `0` both leave it out. -/
def fetch_pool_ohlcv_request (network pool_address timeframe : String)
    (aggregate : ℤ) (before_timestamp : Option ℤ) (limit : ℤ)
    (currency token : String) : String × OhlcvParams :=
  let network := if network = "ethereum" then "eth" else network
  let endpoint := "/networks/" ++ network ++ "/pools/" ++ pool_address
    ++ "/ohlcv/" ++ timeframe
  let params : OhlcvParams :=
    { aggregate := aggregate, limit := min limit 1000,
      currency := currency, token := token, before_timestamp := none }
  let params :=
    match before_timestamp with
    | some t => if t ≠ 0 then { params with before_timestamp := some t } else params
    | none => params
  (endpoint, params)

/-- An OHLCV candle record; `datetime` is `pd.to_datetime(timestamp,
unit='s')`, represented by the epoch seconds it encodes. -/
structure Candle where
  timestamp : ℤ
  datetime : ℤ
  «open» : ℚ
  high : ℚ
  low : ℚ
  close : ℚ
  volume : ℚ
deriving Repr

/-- Models `xs[i]` on a list: `IndexError` — which no handler in the source
catches — when the index is out of range. -/
def pyIndex (xs : List JVal) (i : ℕ) : Except PyErr JVal :=
  match xs.get? i with
  | some v => .ok v
  | none => .error .uncaught

/-- `float(v)` with its `ValueError`/`TypeError` surfaced as a caught
exception, as every handler around a coercion catches both. -/
def coerceF (v : JVal) : Except PyErr ℚ :=
  match pyFloat v with
  | some q => .ok q
  | none => .error .caught

/-- `int(v)` under the same exception encoding as `coerceF`. -/
def coerceI (v : JVal) : Except PyErr ℤ :=
  match pyInt v with
  | some n => .ok n
  | none => .error .caught

/-- One element of the `ohlcv_list` comprehension: `data[0] .. data[5]`
coerced with `int`/`float` in source order.  Indexing a non-list `data`
raises a `TypeError`, which the surrounding handler catches.  (A string
element, which Python would index character by character, is approximated
by the same caught outcome; no payload in scope contains one.) -/
def parseCandle (data : JVal) : Except PyErr Candle :=
  match data with
  | .arr xs => do
    let ts ← coerceI (← pyIndex xs 0)
    let o ← coerceF (← pyIndex xs 1)
    let h ← coerceF (← pyIndex xs 2)
    let l ← coerceF (← pyIndex xs 3)
    let c ← coerceF (← pyIndex xs 4)
    let v ← coerceF (← pyIndex xs 5)
    return ⟨ts, ts, o, h, l, c, v⟩
  | _ => .error .caught

/-- A Python list comprehension over `items` applying `f`: elements are
processed in order and the first exception abandons the whole list. -/
def comprehend {α : Type} (f : JVal → Except PyErr α) :
    List JVal → Except PyErr (List α)
  | [] => .ok []
  | x :: rest =>
    match f x with
    | .error e => .error e
    | .ok a =>
      match comprehend f rest with
      | .error e => .error e
      | .ok as => .ok (a :: as)

/-- Models the response-normalizing suffix of `fetch_pool_ohlcv` (lines
110-132) on the decoded response of its `_make_request` call.  The guard
returns `None` for a falsy response or missing `data`/`attributes` keys;
the `try` block catches `KeyError` (missing `ohlcv_list`), `ValueError` and
`TypeError` (bad coercion, non-subscriptable element, non-iterable
`ohlcv_list`) and returns `None`; an `IndexError` from a short candle row
propagates. -/
def fetch_pool_ohlcv_normalize (response : JVal) :
    Except PyErr (Option (List Candle)) :=
  if !response.truthy || !response.hasKey "data"
      || !(((response.get "data").getD .null).hasKey "attributes") then
    .ok none
  else
    let attrs := (((response.get "data").getD .null).get "attributes").getD .null
    match attrs.get "ohlcv_list" with
    | none => .ok none
    | some (.arr items) =>
      match comprehend parseCandle items with
      | .ok cs => .ok (some cs)
      | .error .caught => .ok none
      | .error .uncaught => .error .uncaught
    | some _ => .ok none

/-- Claim C8: the OHLCV request path translates the caller's network name
`"ethereum"` to the provider short code (`/networks/eth/...`); every other
network name is used verbatim in the path. -/
theorem ohlcv_network_aliasing (network pool_address timeframe : String)
    (aggregate : ℤ) (bt : Option ℤ) (limit : ℤ) (currency token : String) :
    (network = "ethereum" →
      (fetch_pool_ohlcv_request network pool_address timeframe aggregate bt
        limit currency token).1 =
        "/networks/eth/pools/" ++ pool_address ++ "/ohlcv/" ++ timeframe) ∧
    (network ≠ "ethereum" →
      (fetch_pool_ohlcv_request network pool_address timeframe aggregate bt
        limit currency token).1 =
        "/networks/" ++ network ++ "/pools/" ++ pool_address ++ "/ohlcv/"
          ++ timeframe) := by
  constructor
  · intro h
    subst h
    rfl
  · intro h
    simp [fetch_pool_ohlcv_request, h]

/-- Witness for `ohlcv_network_aliasing`: the `"ethereum"` alias. -/
theorem ohlcv_network_aliasing_witness :
    (fetch_pool_ohlcv_request "ethereum" "P" "day" 1 none 100 "usd"
      "base").1 = "/networks/eth/pools/P/ohlcv/day" :=
  (ohlcv_network_aliasing "ethereum" "P" "day" 1 none 100 "usd" "base").1 rfl

/-- Claim C10: the `before_timestamp` parameter is sent iff the caller's
value is truthy: passing `0` builds the same request as omitting the
argument, and any nonzero value is sent unchanged. -/
theorem ohlcv_before_timestamp_truthiness (network pool_address timeframe :
    String) (aggregate limit : ℤ) (currency token : String) :
    fetch_pool_ohlcv_request network pool_address timeframe aggregate (some 0)
        limit currency token =
      fetch_pool_ohlcv_request network pool_address timeframe aggregate none
        limit currency token ∧
    (∀ t : ℤ, t ≠ 0 →
      (fetch_pool_ohlcv_request network pool_address timeframe aggregate
        (some t) limit currency token).2.before_timestamp = some t) := by
  constructor
  · rfl
  · intro t ht
    simp [fetch_pool_ohlcv_request, ht]

/-- Witness for `ohlcv_before_timestamp_truthiness` at `t = 5`. -/
theorem ohlcv_before_timestamp_truthiness_witness :
    (fetch_pool_ohlcv_request "eth" "P" "day" 1 (some 5) 100 "usd"
      "base").2.before_timestamp = some 5 :=
  (ohlcv_before_timestamp_truthiness "eth" "P" "day" 1 100 "usd" "base").2
    5 (by decide)

/- ------------------------------------------------------------------
Historical TVL fetch (`YieldSamuraiClient.fetch_tvl`, lines 170-202).
------------------------------------------------------------------ -/

/-- A TVL History Point; `datetime` as in `Candle`. -/
structure TvlPoint where
  timestamp : ℤ
  datetime : ℤ
  tvl_usd : ℚ
deriving Repr

/-- Models `v[key]` subscripting inside a handler that catches both
`KeyError` (missing key) and `TypeError` (non-dict target). -/
def pySubscript (v : JVal) (key : String) : Except PyErr JVal :=
  match v with
  | .obj kvs =>
    match lookupKey kvs key with
    | some x => .ok x
    | none => .error .caught
  | _ => .error .caught

/-- One element of the `records` comprehension in `fetch_tvl`:
`int(record['timestamp'])` and `float(record['tvl']['totalUsd'])`, both
under a handler catching `KeyError`, `ValueError` and `TypeError`. -/
def parseTvlRecord (record : JVal) : Except PyErr TvlPoint := do
  let tsv ← pySubscript record "timestamp"
  let ts ← coerceI tsv
  let tvl ← pySubscript record "tvl"
  let tot ← pySubscript tvl "totalUsd"
  let q ← coerceF tot
  return ⟨ts, ts, q⟩

/-- What one call to `fetch_tvl` produces: the endpoint, the query
parameters actually sent, the returned value, and the CSV side effect
(`none` when no file is written, otherwise the file name and the number of
data rows, one per record in the result). -/
structure TvlFetchOutcome where
  endpoint : String
  params_days : ℤ
  params_interval : String
  result : Except PyErr (Option (List TvlPoint))
  csv : Option (String × ℕ)

/-- Models `fetch_tvl` on the decoded response of its `_make_request` call:
the `days` parameter is clamped to the demo limit with `min(days, 7)`; a
falsy response or missing `records` key yields `None`; the record
comprehension runs under a handler catching `KeyError`/`ValueError`/
`TypeError` that returns `None`; the CSV file
`yieldsamurai_tvl_{chain}_{pool_address[:6]}.csv` is written only when the
result list is nonempty, with one data row per record.  (A non-list
`records` value raises `TypeError` inside that handler; a string or dict,
which Python would iterate per character or per key, is approximated the
same way; no payload in scope has one.) -/
def fetch_tvl (chain pool_address : String) (days : ℤ) (interval : String)
    (response : JVal) : TvlFetchOutcome :=
  let endpoint := "/pools/" ++ chain ++ "/" ++ pool_address ++ "/historical"
  let d := min days 7
  if !response.truthy || !response.hasKey "records" then
    ⟨endpoint, d, interval, .ok none, none⟩
  else
    match (response.get "records").getD .null with
    | .arr items =>
      match comprehend parseTvlRecord items with
      | .ok results =>
        if results.isEmpty then
          ⟨endpoint, d, interval, .ok (some results), none⟩
        else
          ⟨endpoint, d, interval, .ok (some results),
            some ("yieldsamurai_tvl_" ++ chain ++ "_"
              ++ pool_address.take 6 ++ ".csv", results.length)⟩
      | .error .caught => ⟨endpoint, d, interval, .ok none, none⟩
      | .error .uncaught => ⟨endpoint, d, interval, .error .uncaught, none⟩
    | _ => ⟨endpoint, d, interval, .ok none, none⟩

/-- Claim C7: every historical-TVL fetch sends `days = min(d, 7)` (so
`days = 30` is clamped to 7), and the CSV side effect happens exactly when
the call succeeds with a nonempty result list, writing
`yieldsamurai_tvl_{chain}_{pool_address[:6]}.csv` with one data row per
returned record; no file is written when the result is empty or the call
fails. -/
theorem fetch_tvl_days_clamped_csv (chain pool_address : String) (days : ℤ)
    (interval : String) (response : JVal) :
    (fetch_tvl chain pool_address days interval response).params_days =
      min days 7 ∧
    (fetch_tvl chain pool_address days interval response).csv =
      (match (fetch_tvl chain pool_address days interval response).result with
       | .ok (some results) =>
         if results.isEmpty then none
         else some ("yieldsamurai_tvl_" ++ chain ++ "_"
           ++ pool_address.take 6 ++ ".csv", results.length)
       | _ => none) := by
  unfold fetch_tvl
  split
  · exact ⟨rfl, rfl⟩
  · split
    · split
      · split
        · exact ⟨rfl, by simp_all⟩
        · exact ⟨rfl, by simp_all⟩
      · exact ⟨rfl, rfl⟩
      · exact ⟨rfl, rfl⟩
    · exact ⟨rfl, rfl⟩

/-- Claim C3 counterexample: in the OHLCV normalizer, one record whose
coercion fails (here `float(None)`) among otherwise valid records does not
get skipped individually — the whole call returns the no-data sentinel
`None` instead of the remaining valid records, because the single `try`
wraps the entire comprehension. -/
theorem ohlcv_bad_record_aborts_batch :
    parseCandle (JVal.arr [JVal.num 100, JVal.num 1, JVal.num 2, JVal.num 1,
      JVal.num 1, JVal.num 10]) = .ok ⟨100, 100, 1, 2, 1, 1, 10⟩ ∧
    parseCandle (JVal.arr [JVal.num 200, JVal.null, JVal.num 2, JVal.num 1,
      JVal.num 1, JVal.num 10]) = .error .caught ∧
    fetch_pool_ohlcv_normalize (JVal.obj [("data", JVal.obj [("attributes",
      JVal.obj [("ohlcv_list", JVal.arr
        [JVal.arr [JVal.num 100, JVal.num 1, JVal.num 2, JVal.num 1,
          JVal.num 1, JVal.num 10],
         JVal.arr [JVal.num 200, JVal.null, JVal.num 2, JVal.num 1,
           JVal.num 1, JVal.num 10],
         JVal.arr [JVal.num 300, JVal.num 1, JVal.num 1, JVal.num 1,
           JVal.num 1, JVal.num 5]])])])]) = .ok none := by
  refine ⟨rfl, rfl, rfl⟩

/-- In a comprehension, a caught failure on one element abandons the whole
list when every element before it succeeds. -/
lemma comprehend_append_caught {α : Type} (f : JVal → Except PyErr α)
    (xs : List JVal) (bad : JVal) (ys : List JVal)
    (hxs : ∀ x ∈ xs, ∃ a, f x = .ok a)
    (hbad : f bad = .error .caught) :
    comprehend f (xs ++ bad :: ys) = .error .caught := by
  induction xs with
  | nil => simp [comprehend, hbad]
  | cons x xs ih =>
    obtain ⟨a, ha⟩ := hxs x (by simp)
    have h2 := ih fun y hy => hxs y (by simp [hy])
    simp [comprehend, ha, h2]

/-- Removing one skipped (caught-and-continued) entry from the multi-pool
loop leaves the accumulated records unchanged. -/
lemma multiPoolLoop_skip (network : String) (now : ℤ) (xs : List JVal)
    (bad : JVal) (ys : List JVal)
    (hbad : parsePoolData network now bad = .ok none) :
    multiPoolLoop network now (xs ++ bad :: ys) =
      multiPoolLoop network now (xs ++ ys) := by
  induction xs with
  | nil => simp [multiPoolLoop, hbad]
  | cons x xs ih =>
    have ih' : multiPoolLoop network now (xs.append (bad :: ys)) =
        multiPoolLoop network now (xs.append ys) := ih
    simp only [List.cons_append, multiPoolLoop, ih']

/-- Claim C3 (amended): per-record skipping holds only for the multi-pool
normalizer — there, a record whose coercion fails under the per-record
handler is skipped while the remaining records are still returned (removing
the failing record leaves the result unchanged); the OHLCV and TVL
normalizers run their whole comprehension under a single handler, so one
record's coercion failure makes the entire call return the no-data sentinel
`None`. -/
theorem per_record_skip_only_multi_pool (network : String)
    (pool_addresses : List String) (now : ℤ)
    (xs ys cxs cys txs tys : List JVal) (bad cbad tbad : JVal)
    (chain pool_address : String) (days : ℤ) (interval : String)
    (hp : pool_addresses ≠ [])
    (hbad : parsePoolData network now bad = .ok none)
    (hcxs : ∀ x ∈ cxs, ∃ c, parseCandle x = .ok c)
    (hcbad : parseCandle cbad = .error .caught)
    (htxs : ∀ x ∈ txs, ∃ p, parseTvlRecord x = .ok p)
    (htbad : parseTvlRecord tbad = .error .caught) :
    fetch_multi_pool_metrics network pool_addresses
        (.obj [("data", .arr (xs ++ bad :: ys))]) now =
      fetch_multi_pool_metrics network pool_addresses
        (.obj [("data", .arr (xs ++ ys))]) now ∧
    fetch_pool_ohlcv_normalize (.obj [("data", .obj [("attributes",
        .obj [("ohlcv_list", .arr (cxs ++ cbad :: cys))])])]) = .ok none ∧
    (fetch_tvl chain pool_address days interval
        (.obj [("records", .arr (txs ++ tbad :: tys))])).result = .ok none := by
  refine ⟨?_, ?_, ?_⟩
  · have hp' : pool_addresses.isEmpty = false := by
      cases pool_addresses with
      | nil => exact absurd rfl hp
      | cons a l => rfl
    simp [fetch_multi_pool_metrics, hp', JVal.truthy, JVal.hasKey, JVal.get,
      lookupKey, multiPoolLoop_skip network now xs bad ys hbad]
  · have h := comprehend_append_caught parseCandle cxs cbad cys hcxs hcbad
    simp [fetch_pool_ohlcv_normalize, JVal.truthy, JVal.hasKey, JVal.get,
      lookupKey, h]
  · have h := comprehend_append_caught parseTvlRecord txs tbad tys htxs htbad
    simp [fetch_tvl, JVal.truthy, JVal.hasKey, JVal.get, lookupKey, h]

/-- Witness for `per_record_skip_only_multi_pool`: a multi-pool entry with a
non-numeric `reserve_in_usd`, and a malformed OHLCV candle / TVL record. -/
theorem per_record_skip_only_multi_pool_witness :
    fetch_multi_pool_metrics "eth" ["P"]
        (.obj [("data", .arr [.obj [("attributes",
          .obj [("reserve_in_usd", .str "zzz")])]])]) 0 =
      fetch_multi_pool_metrics "eth" ["P"] (.obj [("data", .arr [])]) 0 ∧
    fetch_pool_ohlcv_normalize (.obj [("data", .obj [("attributes",
        .obj [("ohlcv_list", .arr [JVal.null])])])]) = .ok none ∧
    (fetch_tvl "sui" "POOL" 30 "hourly"
        (.obj [("records", .arr [JVal.null])])).result = .ok none :=
  per_record_skip_only_multi_pool "eth" ["P"] 0 [] [] [] [] [] []
    (.obj [("attributes", .obj [("reserve_in_usd", .str "zzz")])])
    JVal.null JVal.null "sui" "POOL" 30 "hourly"
    (by simp) rfl (by simp) rfl (by simp) rfl
